import Mathlib

/-!
Shallow embedding of the StressOFF biometric analytics core:
the daily health aggregator (`analyze_health` in backend/main.py) and the
synthetic circadian generator (`HealthSimulator` in
backend/smartwatch_simulator.py).  Python floats are modelled as rationals;
`round(x, n)` is modelled as round-half-to-even at `n` decimal digits and
`int(x)` as truncation toward zero.
-/

namespace StressOFF

/-- Round-half-to-even of a rational to an integer, the rounding mode of
Python `round`. -/
def roundHalfEven (y : ℚ) : ℤ :=
  let f := ⌊y⌋
  let r := y - f
  if r < 1/2 then f
  else if 1/2 < r then f + 1
  else if f % 2 = 0 then f else f + 1

/-- Python `round(x, n)`: round-half-to-even at `n` decimal digits. -/
def pyRound (n : ℕ) (x : ℚ) : ℚ :=
  (roundHalfEven (x * 10 ^ n) : ℚ) / 10 ^ n

/-- Python `int(x)`: truncation toward zero. -/
def pyInt (x : ℚ) : ℤ :=
  if 0 ≤ x then ⌊x⌋ else -⌊-x⌋

/-- Python `sorted` returns the unique ascending reordering of a list, here
realised by insertion sort. -/
def pySorted (l : List ℚ) : List ℚ :=
  l.insertionSort (· ≤ ·)

/-! ## Generator: backend/smartwatch_simulator.py -/

/-- Result of `HealthSimulator.get_time_of_day_factor`. -/
structure TimeFactors where
  hr_multiplier : ℚ
  hrv_multiplier : ℚ
  activity : ℚ
  is_sleeping : Bool
deriving DecidableEq

/-- Embeds `HealthSimulator.get_time_of_day_factor`, simulator lines 30-99.  The
argument is the wall clock split into `hour` and `minute`. -/
def get_time_of_day_factor (hour minute : ℕ) : TimeFactors :=
  let time_decimal : ℚ := (hour : ℚ) + (minute : ℚ) / 60
  if 23 ≤ hour ∨ hour < 7 then
    ⟨0.75, 1.3, 0, true⟩
  else if 7 ≤ hour ∧ hour < 9 then
    let wake_progress := (time_decimal - 7) / 2
    ⟨0.75 + 0.25 * wake_progress, 1.3 - 0.3 * wake_progress,
      wake_progress * 0.3, false⟩
  else if 9 ≤ hour ∧ hour < 12 then
    ⟨1.1, 0.95, 0.6, false⟩
  else if 12 ≤ hour ∧ hour < 14 then
    ⟨0.95, 1.05, 0.3, false⟩
  else if 14 ≤ hour ∧ hour < 18 then
    ⟨1.15, 0.85, 0.8, false⟩
  else if 18 ≤ hour ∧ hour < 21 then
    let wind_down := (time_decimal - 18) / 3
    ⟨1.1 - 0.2 * wind_down, 0.9 + 0.2 * wind_down,
      0.5 - 0.3 * wind_down, false⟩
  else
    ⟨0.85, 1.15, 0.1, false⟩

/-- Module constant `INTERVAL_MINUTES = 1` of the simulator. -/
def INTERVAL_MINUTES : ℚ := 1

/-- Baseline resting heart rate fixed in `HealthSimulator.__init__`. -/
def base_resting_hr : ℚ := 60

/-- Baseline HRV fixed in `HealthSimulator.__init__`. -/
def base_hrv : ℚ := 50

/-- One value for each independent random draw made by
`generate_metrics`: three gaussians, one uniform(100,300), one
gaussian for SpO2. -/
structure MetricDraws where
  hr_noise : ℚ
  resting_noise : ℚ
  hrv_noise : ℚ
  steps_uniform : ℚ
  spo2_noise : ℚ
deriving DecidableEq

/-- The dictionary returned by `HealthSimulator.generate_metrics`
(userId and timestamp, which carry no analytic content, are omitted).
The data model declares spo2 optional, hence `Option ℚ` here. -/
structure GenSample where
  heartRate : ℚ
  restingHeartRate : ℚ
  hrv : ℚ
  steps : ℤ
  calories : ℚ
  activeMinutes : ℤ
  spo2 : Option ℚ
  is_sleeping : Bool
deriving DecidableEq

/-- Embeds `HealthSimulator.generate_metrics`, simulator lines 101-142, with the
random draws passed explicitly. -/
def generate_metrics (hour minute : ℕ) (d : MetricDraws) : GenSample :=
  let factors := get_time_of_day_factor hour minute
  let hr := base_resting_hr * factors.hr_multiplier + d.hr_noise
  let resting_hr := base_resting_hr + d.resting_noise
  let hrv := base_hrv * factors.hrv_multiplier + d.hrv_noise
  let steps_per_interval := pyInt (factors.activity * d.steps_uniform)
  let basal_cal_per_min : ℚ := 1.2
  let active_cal_per_min := factors.activity * 5
  let calories := (basal_cal_per_min + active_cal_per_min) * INTERVAL_MINUTES
  let active_minutes := pyInt (factors.activity * INTERVAL_MINUTES)
  let spo2 := max 94 (min 100 (97 + d.spo2_noise))
  { heartRate := pyRound 1 (max 45 (min 120 hr))
    restingHeartRate := pyRound 1 (max 50 (min 75 resting_hr))
    hrv := pyRound 1 (max 20 (min 100 hrv))
    steps := steps_per_interval
    calories := pyRound 1 calories
    activeMinutes := active_minutes
    spo2 := some (pyRound 1 spo2)
    is_sleeping := factors.is_sleeping }

/-- One value for each independent random draw made by
`generate_sleep_data`. -/
structure SleepDraws where
  duration_gauss : ℚ
  quality_gauss : ℚ
  deep_uniform : ℚ
  rem_uniform : ℚ
deriving DecidableEq

/-- The dictionary returned by `HealthSimulator.generate_sleep_data`
(userId and date omitted). -/
structure SleepRecord where
  durationHours : ℚ
  qualityScore : ℚ
  deepSleepMinutes : ℤ
  remSleepMinutes : ℤ
  lightSleepMinutes : ℤ
deriving DecidableEq

/-- Embeds `HealthSimulator.generate_sleep_data`, simulator lines 144-170, with
the random draws passed explicitly. -/
def generate_sleep_data (d : SleepDraws) : SleepRecord :=
  let duration := max 5.5 (min 9.5 d.duration_gauss)
  let quality := max 40 (min 100 (70 + (duration - 6) * 5 + d.quality_gauss))
  let total_minutes := pyInt (duration * 60)
  let deep_pct := 0.15 + d.deep_uniform
  let rem_pct := 0.25 + d.rem_uniform
  let light_pct := 1 - deep_pct - rem_pct
  { durationHours := pyRound 2 duration
    qualityScore := pyRound 1 quality
    deepSleepMinutes := pyInt ((total_minutes : ℚ) * deep_pct)
    remSleepMinutes := pyInt ((total_minutes : ℚ) * rem_pct)
    lightSleepMinutes := pyInt ((total_minutes : ℚ) * light_pct) }

/-! ## Aggregator: `analyze_health` in backend/main.py -/

/-- The `HealthMetric` pydantic model of main.py (timestamp omitted). -/
structure HealthMetric where
  heartRate : ℚ
  restingHeartRate : ℚ
  hrv : ℚ
  steps : ℤ
  calories : ℚ
  activeMinutes : ℤ
  spo2 : Option ℚ
deriving DecidableEq

/-- The `SleepData` pydantic model of main.py. -/
structure SleepData where
  durationHours : ℚ
  qualityScore : ℚ
  deepSleepMinutes : ℤ
  remSleepMinutes : ℤ
  lightSleepMinutes : ℤ
deriving DecidableEq

/-- The `dailyStats` object built at main.py lines 716-724 (the fields as
computed at lines 565-580; the presentation-layer decimal rounding of the
HTTP response is not part of the statistics). -/
structure DailyStats where
  avgRestingHR : ℚ
  medianHRV : ℚ
  totalSteps : ℤ
  totalCalories : ℚ
  totalActiveMinutes : ℤ
  avgSpO2 : Option ℚ
  stressLevel : ℚ
deriving DecidableEq

/-- The analytic content of the `analyze_health` response: the alert list
and the daily statistics. -/
structure DailyAnalysisResult where
  alerts : List String
  dailyStats : DailyStats
deriving DecidableEq

/-- Alert text appended at main.py line 590. -/
def hrvDropMsg : String :=
  "HRV dropped more than 20 percent - possible stress or overtraining"

/-- Alert text appended at main.py line 594. -/
def lowSleepMsg : String :=
  "Sleep duration low (recommended: 7-9h)"

/-- Alert text appended at main.py line 598. -/
def lowSpo2Msg : String :=
  "Low blood oxygen (normal: above 95 percent)"

/-- Alert text appended at main.py line 603. -/
def sedentaryMsg : String :=
  "Very low activity detected - try to move more throughout the day"

/-- main.py line 570: `sorted(hrv_values)[len(hrv_values) // 2]`. -/
def median_hrv (hrv_values : List ℚ) : ℚ :=
  (pySorted hrv_values).getD (hrv_values.length / 2) 0

/-- main.py line 579: mean squared deviation from `median_hrv`. -/
def hrv_variance (hrv_values : List ℚ) : ℚ :=
  ((hrv_values.map (fun x => (x - median_hrv hrv_values) ^ 2)).sum) /
    (hrv_values.length : ℚ)

/-- main.py line 580: `min(10, hrv_variance / 10)`. -/
def stress_level (hrv_values : List ℚ) : ℚ :=
  min 10 (hrv_variance hrv_values / 10)

/-- main.py line 587: mean of the first `n // 2` HRV values. -/
def hrv_baseline (hrv_values : List ℚ) : ℚ :=
  ((hrv_values.take (hrv_values.length / 2)).sum) /
    ((hrv_values.length / 2 : ℕ) : ℚ)

/-- main.py line 588: mean of the remaining HRV values. -/
def hrv_recent (hrv_values : List ℚ) : ℚ :=
  ((hrv_values.drop (hrv_values.length / 2)).sum) /
    ((hrv_values.length - hrv_values.length / 2 : ℕ) : ℚ)

/-- main.py lines 586-590: the HRV-drop alert, guarded by `n > 1` and by
`hrv_baseline > 0`. -/
def hrvDropAlerts (hrv_values : List ℚ) : List String :=
  if hrv_values.length > 1 then
    if hrv_baseline hrv_values > 0 ∧
        (hrv_baseline hrv_values - hrv_recent hrv_values) /
          hrv_baseline hrv_values > 0.20 then
      [hrvDropMsg]
    else []
  else []

/-- main.py lines 593-594: the low-sleep alert (`sleepData` truthiness in
Python is not-None for a model object). -/
def sleepAlerts (sleepData : Option SleepData) : List String :=
  match sleepData with
  | some sd => if sd.durationHours < 6 then [lowSleepMsg] else []
  | none => []

/-- main.py line 568: the spo2 values of the samples that carry one. -/
def spo2_values (metrics : List HealthMetric) : List ℚ :=
  metrics.filterMap (·.spo2)

/-- main.py line 572: mean of the present spo2 values, None when there are
none (Python list truthiness). -/
def avg_spo2 (metrics : List HealthMetric) : Option ℚ :=
  if spo2_values metrics = [] then none
  else some ((spo2_values metrics).sum / ((spo2_values metrics).length : ℚ))

/-- main.py lines 597-598: `if avg_spo2 and avg_spo2 < 94`.  Python float
truthiness makes a mean of exactly 0 falsy, hence the `v ≠ 0` conjunct. -/
def spo2Alerts (metrics : List HealthMetric) : List String :=
  match avg_spo2 metrics with
  | some v => if v ≠ 0 ∧ v < 94 then [lowSpo2Msg] else []
  | none => []

/-- main.py line 576: sum of activeMinutes. -/
def total_active_minutes (metrics : List HealthMetric) : ℤ :=
  (metrics.map (·.activeMinutes)).sum

/-- main.py line 601: `(24 * 60 - total_active_minutes) / 60`. -/
def sedentary_hours (metrics : List HealthMetric) : ℚ :=
  (24 * 60 - (total_active_minutes metrics : ℚ)) / 60

/-- main.py lines 602-603: the low-activity alert. -/
def sedentaryAlerts (metrics : List HealthMetric) : List String :=
  if sedentary_hours metrics > 22 then [sedentaryMsg] else []

/-- Embeds `analyze_health`, main.py lines 557-725: the empty-input guard, the
daily statistics and the four alert rules in their fixed order. -/
def analyze_health (metrics : List HealthMetric)
    (sleepData : Option SleepData) : Except String DailyAnalysisResult :=
  if metrics = [] then .error "No health metrics provided"
  else
    .ok
      { alerts :=
          hrvDropAlerts (metrics.map (·.hrv)) ++ sleepAlerts sleepData ++
            spo2Alerts metrics ++ sedentaryAlerts metrics
        dailyStats :=
          { avgRestingHR :=
              (metrics.map (·.restingHeartRate)).sum /
                ((metrics.map (·.restingHeartRate)).length : ℚ)
            medianHRV := median_hrv (metrics.map (·.hrv))
            totalSteps := (metrics.map (·.steps)).sum
            totalCalories := (metrics.map (·.calories)).sum
            totalActiveMinutes := total_active_minutes metrics
            avgSpO2 := avg_spo2 metrics
            stressLevel := stress_level (metrics.map (·.hrv)) } }

/-! ## Spec-side definitions -/

/-- Linear interpolation from `a` to `b` at progress `p`. -/
def lerp (a b p : ℚ) : ℚ := a + (b - a) * p

/-- Modelled from the spec table of section 4.1: the seven circadian
phases as half-open intervals of the decimal clock time, the Sleep phase
wrapping past midnight, with linear interpolation by elapsed fraction of
the phase span inside Wake-up and Wind-down. -/
def specTimeOfDayFactor (td : ℚ) : TimeFactors :=
  if 23 ≤ td ∨ td < 7 then
    ⟨0.75, 1.3, 0, true⟩
  else if td < 9 then
    let p := (td - 7) / (9 - 7)
    ⟨lerp 0.75 1 p, lerp 1.3 1 p, lerp 0 0.3 p, false⟩
  else if td < 12 then
    ⟨1.1, 0.95, 0.6, false⟩
  else if td < 14 then
    ⟨0.95, 1.05, 0.3, false⟩
  else if td < 18 then
    ⟨1.15, 0.85, 0.8, false⟩
  else if td < 21 then
    let p := (td - 18) / (21 - 18)
    ⟨lerp 1.1 0.9 p, lerp 0.9 1.1 p, lerp 0.5 0.2 p, false⟩
  else
    ⟨0.85, 1.15, 0.1, false⟩

/-- Project the result out of a successful aggregation. -/
def getOk (e : Except String DailyAnalysisResult) : DailyAnalysisResult :=
  match e with
  | .ok r => r
  | .error _ => { alerts := [], dailyStats := ⟨0, 0, 0, 0, 0, none, 0⟩ }

/-- The alert list of an aggregation, empty on failure. -/
def alertsOf (e : Except String DailyAnalysisResult) : List String :=
  (getOk e).alerts

/-! ## Helper lemmas -/

lemma floor_le_roundHalfEven (y : ℚ) : ⌊y⌋ ≤ roundHalfEven y := by
  simp only [roundHalfEven]
  split_ifs <;> omega

lemma floor_add_one_le_ceil (y : ℚ) (h : (⌊y⌋ : ℚ) < y) : ⌊y⌋ + 1 ≤ ⌈y⌉ := by
  have h2 : (⌊y⌋ : ℚ) < (⌈y⌉ : ℚ) := lt_of_lt_of_le h (Int.le_ceil y)
  have h3 : ⌊y⌋ < ⌈y⌉ := by exact_mod_cast h2
  omega

lemma roundHalfEven_le_ceil (y : ℚ) : roundHalfEven y ≤ ⌈y⌉ := by
  have hfc := Int.floor_le_ceil y
  simp only [roundHalfEven]
  split_ifs with h1 h2 h3
  · exact hfc
  · exact floor_add_one_le_ceil y (by linarith)
  · exact hfc
  · exact floor_add_one_le_ceil y (by linarith)

lemma roundHalfEven_mem (lo hi : ℤ) (y : ℚ) (h1 : (lo : ℚ) ≤ y)
    (h2 : y ≤ (hi : ℚ)) : lo ≤ roundHalfEven y ∧ roundHalfEven y ≤ hi :=
  ⟨le_trans (Int.le_floor.mpr h1) (floor_le_roundHalfEven y),
   le_trans (roundHalfEven_le_ceil y) (Int.ceil_le.mpr h2)⟩

lemma pyRound_mem (n : ℕ) (lo hi : ℤ) (x : ℚ) (h1 : (lo : ℚ) ≤ x)
    (h2 : x ≤ (hi : ℚ)) :
    (lo : ℚ) ≤ pyRound n x ∧ pyRound n x ≤ (hi : ℚ) := by
  have hp : (0 : ℚ) < 10 ^ n := by positivity
  have l1 : ((lo * 10 ^ n : ℤ) : ℚ) ≤ x * 10 ^ n := by
    push_cast
    exact mul_le_mul_of_nonneg_right h1 hp.le
  have l2 : x * 10 ^ n ≤ ((hi * 10 ^ n : ℤ) : ℚ) := by
    push_cast
    exact mul_le_mul_of_nonneg_right h2 hp.le
  obtain ⟨a, b⟩ :=
    roundHalfEven_mem (lo * 10 ^ n) (hi * 10 ^ n) (x * 10 ^ n) l1 l2
  have a' : ((lo : ℚ) * 10 ^ n) ≤ (roundHalfEven (x * 10 ^ n) : ℚ) := by
    exact_mod_cast a
  have b' : (roundHalfEven (x * 10 ^ n) : ℚ) ≤ (hi : ℚ) * 10 ^ n := by
    exact_mod_cast b
  unfold pyRound
  constructor
  · rw [le_div_iff₀ hp]
    linarith
  · rw [div_le_iff₀ hp]
    linarith

lemma abs_roundHalfEven_sub (y : ℚ) : |(roundHalfEven y : ℚ) - y| ≤ 1 / 2 := by
  have h1 := Int.floor_le y
  have h2 := Int.lt_floor_add_one y
  simp only [roundHalfEven]
  split_ifs <;> (rw [abs_le]; push_cast; constructor <;> linarith)

lemma abs_pyRound_sub (n : ℕ) (x : ℚ) :
    |pyRound n x - x| ≤ 1 / (2 * 10 ^ n) := by
  have h := abs_roundHalfEven_sub (x * 10 ^ n)
  have hp : (0 : ℚ) < 10 ^ n := by positivity
  have key : pyRound n x - x =
      ((roundHalfEven (x * 10 ^ n) : ℚ) - x * 10 ^ n) / 10 ^ n := by
    unfold pyRound
    field_simp
    ring
  rw [key, abs_div, abs_of_pos hp, div_le_div_iff₀ hp (by positivity)]
  nlinarith [h, hp]

lemma pyInt_eq_floor (x : ℚ) (h : 0 ≤ x) : pyInt x = ⌊x⌋ := if_pos h

lemma analyze_health_ok (metrics : List HealthMetric)
    (sleepData : Option SleepData) (hm : metrics ≠ []) :
    analyze_health metrics sleepData = .ok
      { alerts :=
          hrvDropAlerts (metrics.map (·.hrv)) ++ sleepAlerts sleepData ++
            spo2Alerts metrics ++ sedentaryAlerts metrics
        dailyStats :=
          { avgRestingHR :=
              (metrics.map (·.restingHeartRate)).sum /
                ((metrics.map (·.restingHeartRate)).length : ℚ)
            medianHRV := median_hrv (metrics.map (·.hrv))
            totalSteps := (metrics.map (·.steps)).sum
            totalCalories := (metrics.map (·.calories)).sum
            totalActiveMinutes := total_active_minutes metrics
            avgSpO2 := avg_spo2 metrics
            stressLevel := stress_level (metrics.map (·.hrv)) } } := by
  unfold analyze_health
  rw [if_neg hm]

lemma eq_hrvDropMsg_of_mem {msg : String} {l : List ℚ}
    (h : msg ∈ hrvDropAlerts l) : msg = hrvDropMsg := by
  unfold hrvDropAlerts at h
  split_ifs at h <;> simp_all

lemma eq_lowSleepMsg_of_mem {msg : String} {s : Option SleepData}
    (h : msg ∈ sleepAlerts s) : msg = lowSleepMsg := by
  revert h
  unfold sleepAlerts
  rcases s with _ | sd
  · simp
  · dsimp only
    split_ifs <;> simp_all

lemma eq_lowSpo2Msg_of_mem {msg : String} {metrics : List HealthMetric}
    (h : msg ∈ spo2Alerts metrics) : msg = lowSpo2Msg := by
  revert h
  unfold spo2Alerts
  rcases avg_spo2 metrics with _ | v
  · simp
  · dsimp only
    split_ifs <;> simp_all

lemma eq_sedentaryMsg_of_mem {msg : String} {metrics : List HealthMetric}
    (h : msg ∈ sedentaryAlerts metrics) : msg = sedentaryMsg := by
  unfold sedentaryAlerts at h
  split_ifs at h <;> simp_all

/-! ## Claim theorems -/

/-- C1: for every non-empty batch, the aggregated `medianHRV` equals the
element at index `⌊n/2⌋` of the HRV values sorted ascending (the
upper-middle element for even `n`). -/
theorem C1_medianHRV_upper_middle (metrics : List HealthMetric)
    (sleepData : Option SleepData) (res : DailyAnalysisResult)
    (hok : analyze_health metrics sleepData = Except.ok res)
    (sorted_hrv : List ℚ) (hperm : (metrics.map (·.hrv)).Perm sorted_hrv)
    (hsort : sorted_hrv.Sorted (· ≤ ·)) :
    res.dailyStats.medianHRV = sorted_hrv.getD (metrics.length / 2) 0 := by
  have hm : metrics ≠ [] := by
    intro h
    subst h
    simp [analyze_health] at hok
  rw [analyze_health_ok metrics sleepData hm] at hok
  cases hok
  have hs : pySorted (metrics.map (·.hrv)) = sorted_hrv :=
    List.eq_of_perm_of_sorted
      ((List.perm_insertionSort _ _).trans hperm)
      (List.sorted_insertionSort _ _) hsort
  show median_hrv (metrics.map (·.hrv)) = _
  unfold median_hrv
  rw [hs, List.length_map]

/-- Sample batch with HRV values 3, 1, 4, 1 for the C1 witness. -/
def c1_metrics : List HealthMetric :=
  [⟨0, 0, 3, 0, 0, 0, none⟩, ⟨0, 0, 1, 0, 0, 0, none⟩,
   ⟨0, 0, 4, 0, 0, 0, none⟩, ⟨0, 0, 1, 0, 0, 0, none⟩]

/-- C1 witness: with four samples of HRV 3, 1, 4, 1, the median statistic
is the upper-middle element of [1, 1, 3, 4], namely the one at index 2. -/
theorem C1_medianHRV_upper_middle_witness :
    (getOk (analyze_health c1_metrics none)).dailyStats.medianHRV =
      ([1, 1, 3, 4] : List ℚ).getD (c1_metrics.length / 2) 0 :=
  C1_medianHRV_upper_middle c1_metrics none _ rfl [1, 1, 3, 4]
    (by decide) (by decide)

/-- C2: for every non-empty batch, `stressLevel` is `min 10 (v / 10)` with
`v` the mean squared deviation of the HRV values from the aggregated
median, hence it always lies in [0, 10]. -/
theorem C2_stress_level_bounds (metrics : List HealthMetric)
    (sleepData : Option SleepData) (res : DailyAnalysisResult)
    (hok : analyze_health metrics sleepData = Except.ok res) :
    res.dailyStats.stressLevel =
      min 10 (((metrics.map (·.hrv)).map
          (fun x => (x - res.dailyStats.medianHRV) ^ 2)).sum /
        (metrics.length : ℚ) / 10) ∧
    0 ≤ res.dailyStats.stressLevel ∧ res.dailyStats.stressLevel ≤ 10 := by
  have hm : metrics ≠ [] := by
    intro h
    subst h
    simp [analyze_health] at hok
  rw [analyze_health_ok metrics sleepData hm] at hok
  cases hok
  have hv : 0 ≤ hrv_variance (metrics.map (·.hrv)) := by
    unfold hrv_variance
    apply div_nonneg _ (Nat.cast_nonneg _)
    apply List.sum_nonneg
    intro a ha
    obtain ⟨x, _, rfl⟩ := List.mem_map.mp ha
    positivity
  refine ⟨?_, ?_, ?_⟩
  · show stress_level (metrics.map (·.hrv)) = _
    unfold stress_level hrv_variance
    rw [List.length_map]
  · exact le_min (by norm_num) (by positivity)
  · exact min_le_left _ _

/-- Singleton batch for the C2 and C3 witnesses. -/
def c3_metrics : List HealthMetric := [⟨0, 0, 7, 0, 0, 0, none⟩]

/-- C2 witness: the stress level of a concrete singleton batch is within
the bounds. -/
theorem C2_stress_level_bounds_witness :
    0 ≤ (getOk (analyze_health c1_metrics none)).dailyStats.stressLevel ∧
    (getOk (analyze_health c1_metrics none)).dailyStats.stressLevel ≤ 10 :=
  (C2_stress_level_bounds c1_metrics none _ rfl).2

/-- C3: aggregation of an empty collection fails with the empty-input
error and yields no result, while every non-empty collection yields a
complete result. -/
theorem C3_empty_input_atomic :
    (∀ sleepData, analyze_health [] sleepData =
      Except.error "No health metrics provided") ∧
    (∀ metrics sleepData, metrics ≠ [] →
      ∃ res : DailyAnalysisResult,
        analyze_health metrics sleepData = Except.ok res) := by
  constructor
  · intro s
    rfl
  · intro m s hm
    exact ⟨_, analyze_health_ok m s hm⟩

/-- C3 witness: the empty batch errors; a concrete one-sample batch
succeeds. -/
theorem C3_empty_input_atomic_witness :
    analyze_health [] none = Except.error "No health metrics provided" ∧
    ∃ res : DailyAnalysisResult,
      analyze_health c3_metrics none = Except.ok res :=
  ⟨C3_empty_input_atomic.1 none,
   C3_empty_input_atomic.2 c3_metrics none (by decide)⟩

/-- C5: the sedentary alert fires exactly when `totalActiveMinutes < 120`,
equivalently when `(24*60 - totalActiveMinutes)/60 > 22`. -/
theorem C5_sedentary_iff (metrics : List HealthMetric)
    (sleepData : Option SleepData) (res : DailyAnalysisResult)
    (hok : analyze_health metrics sleepData = Except.ok res) :
    (sedentaryMsg ∈ res.alerts ↔ total_active_minutes metrics < 120) ∧
    (sedentary_hours metrics > 22 ↔ total_active_minutes metrics < 120) := by
  have harith : sedentary_hours metrics > 22 ↔
      total_active_minutes metrics < 120 := by
    unfold sedentary_hours
    rw [gt_iff_lt, lt_div_iff₀ (by norm_num : (0 : ℚ) < 60)]
    constructor
    · intro h
      have h2 : (total_active_minutes metrics : ℚ) < 120 := by linarith
      exact_mod_cast h2
    · intro h
      have h2 : (total_active_minutes metrics : ℚ) < 120 := by exact_mod_cast h
      linarith
  have hm : metrics ≠ [] := by
    intro h
    subst h
    simp [analyze_health] at hok
  rw [analyze_health_ok metrics sleepData hm] at hok
  cases hok
  refine ⟨?_, harith⟩
  have h1 : sedentaryMsg ∉ hrvDropAlerts (metrics.map (·.hrv)) := fun h =>
    absurd (eq_hrvDropMsg_of_mem h) (by decide)
  have h2 : sedentaryMsg ∉ sleepAlerts sleepData := fun h =>
    absurd (eq_lowSleepMsg_of_mem h) (by decide)
  have h3 : sedentaryMsg ∉ spo2Alerts metrics := fun h =>
    absurd (eq_lowSpo2Msg_of_mem h) (by decide)
  have key : sedentaryMsg ∈ sedentaryAlerts metrics ↔
      sedentary_hours metrics > 22 := by
    unfold sedentaryAlerts
    split_ifs with hc
    · simp [hc]
    · simp [hc]
  show sedentaryMsg ∈ _ ++ _ ++ _ ++ _ ↔ _
  rw [← harith, ← key]
  simp only [List.mem_append]
  tauto

/-- Batch with 30 active minutes total for the C5 witness. -/
def c5_metrics : List HealthMetric := [⟨0, 0, 1, 0, 0, 30, none⟩]

/-- C5 witness: with 30 total active minutes the sedentary alert is
present. -/
theorem C5_sedentary_iff_witness :
    sedentaryMsg ∈ (getOk (analyze_health c5_metrics none)).alerts :=
  ((C5_sedentary_iff c5_metrics none _ rfl).1).mpr (by decide)

/-- Two-sample batch with HRV values 0 and -5: the first-half mean is 0,
so the mean difference 5 exceeds 20 percent of the first-half mean, yet
the code emits no HRV-drop alert because of its `hrv_baseline > 0`
guard. -/
def c4_metrics : List HealthMetric :=
  [⟨0, 0, 0, 0, 0, 30, none⟩, ⟨0, 0, -5, 0, 0, 30, none⟩]

/-- C4 counterexample: a batch with `n = 2` where the first-half mean
minus the second-half mean exceeds 20 percent of the first-half mean but
the HRV-drop alert is not emitted, refuting the claimed `iff`. -/
theorem C4_hrv_drop_counterexample :
    c4_metrics.length > 1 ∧
    hrv_baseline (c4_metrics.map (·.hrv)) -
        hrv_recent (c4_metrics.map (·.hrv)) >
      1 / 5 * hrv_baseline (c4_metrics.map (·.hrv)) ∧
    hrvDropMsg ∉ alertsOf (analyze_health c4_metrics none) := by
  refine ⟨by decide, ?_, ?_⟩
  · norm_num [hrv_baseline, hrv_recent, c4_metrics]
  · unfold alertsOf
    rw [analyze_health_ok c4_metrics none (by simp [c4_metrics])]
    norm_num [getOk, hrvDropAlerts, sleepAlerts, spo2Alerts,
      sedentaryAlerts, avg_spo2, spo2_values, sedentary_hours,
      total_active_minutes, hrv_baseline, hrv_recent, c4_metrics,
      List.filterMap_cons]
    decide

/-- C4 amended: for `n > 1` the HRV-drop alert fires iff the first-half
mean is positive AND the mean difference exceeds 20 percent of it; the
alert never fires for `n = 1`. -/
theorem C4_hrv_drop_amended (metrics : List HealthMetric)
    (sleepData : Option SleepData) (res : DailyAnalysisResult)
    (hok : analyze_health metrics sleepData = Except.ok res) :
    (metrics.length > 1 →
      (hrvDropMsg ∈ res.alerts ↔
        0 < hrv_baseline (metrics.map (·.hrv)) ∧
          hrv_baseline (metrics.map (·.hrv)) -
              hrv_recent (metrics.map (·.hrv)) >
            1 / 5 * hrv_baseline (metrics.map (·.hrv)))) ∧
    (metrics.length = 1 → hrvDropMsg ∉ res.alerts) := by
  have hm : metrics ≠ [] := by
    intro h
    subst h
    simp [analyze_health] at hok
  rw [analyze_health_ok metrics sleepData hm] at hok
  cases hok
  have hlen : (metrics.map (·.hrv)).length = metrics.length :=
    List.length_map _ _
  have h2 : hrvDropMsg ∉ sleepAlerts sleepData := fun h =>
    absurd (eq_lowSleepMsg_of_mem h) (by decide)
  have h3 : hrvDropMsg ∉ spo2Alerts metrics := fun h =>
    absurd (eq_lowSpo2Msg_of_mem h) (by decide)
  have h4 : hrvDropMsg ∉ sedentaryAlerts metrics := fun h =>
    absurd (eq_sedentaryMsg_of_mem h) (by decide)
  have hiso : hrvDropMsg ∈
        hrvDropAlerts (metrics.map (·.hrv)) ++ sleepAlerts sleepData ++
          spo2Alerts metrics ++ sedentaryAlerts metrics ↔
      hrvDropMsg ∈ hrvDropAlerts (metrics.map (·.hrv)) := by
    simp only [List.mem_append]
    tauto
  constructor
  · intro hn
    show hrvDropMsg ∈ _ ++ _ ++ _ ++ _ ↔ _
    rw [hiso]
    unfold hrvDropAlerts
    rw [if_pos (by omega : (metrics.map (·.hrv)).length > 1)]
    split_ifs with hc
    · obtain ⟨hb, hgt⟩ := hc
      simp only [List.mem_singleton, true_iff, iff_true]
      refine ⟨hb, ?_⟩
      rw [gt_iff_lt, lt_div_iff₀ hb] at hgt
      linarith
    · simp only [List.not_mem_nil, false_iff, not_and, not_lt]
      intro hb
      by_contra hgt
      push_neg at hgt
      exact hc ⟨hb, by
        rw [gt_iff_lt, lt_div_iff₀ hb]
        linarith⟩
  · intro h1
    show hrvDropMsg ∉ _ ++ _ ++ _ ++ _
    rw [hiso]
    unfold hrvDropAlerts
    rw [if_neg (by omega : ¬(metrics.map (·.hrv)).length > 1)]
    exact List.not_mem_nil _

/-- Batch for the C4 witness: HRV halves [100] and [50], a 50 percent
drop. -/
def c4w_metrics : List HealthMetric :=
  [⟨0, 0, 100, 0, 0, 30, none⟩, ⟨0, 0, 50, 0, 0, 30, none⟩]

/-- C4 witness: with HRV values 100 then 50 the drop alert is present,
and a singleton batch never carries it. -/
theorem C4_hrv_drop_amended_witness :
    hrvDropMsg ∈ (getOk (analyze_health c4w_metrics none)).alerts ∧
    hrvDropMsg ∉ (getOk (analyze_health c3_metrics none)).alerts :=
  ⟨((C4_hrv_drop_amended c4w_metrics none _ rfl).1 (by decide)).mpr
      (by constructor <;> norm_num [hrv_baseline, hrv_recent, c4w_metrics]),
   (C4_hrv_drop_amended c3_metrics none _ rfl).2 (by decide)⟩

/-- Singleton batch whose only sample carries spo2 = 0: the mean spo2 is
present and equals 0, which Python float truthiness treats as falsy, so
the low-SpO2 alert is skipped. -/
def c6_metrics : List HealthMetric := [⟨0, 0, 1, 0, 0, 30, some 0⟩]

/-- C6 counterexample: a batch where `avgSpO2` is present (one sample
carries spo2) and below 94, yet the low-SpO2 alert is not emitted,
refuting the claimed `iff`. -/
theorem C6_low_spo2_counterexample :
    avg_spo2 c6_metrics = some 0 ∧ (0 : ℚ) < 94 ∧
    lowSpo2Msg ∉ alertsOf (analyze_health c6_metrics none) := by
  refine ⟨?_, by norm_num, ?_⟩
  · norm_num [avg_spo2, spo2_values, c6_metrics, List.filterMap_cons]
  · unfold alertsOf
    rw [analyze_health_ok c6_metrics none (by simp [c6_metrics])]
    norm_num [getOk, hrvDropAlerts, sleepAlerts, spo2Alerts,
      sedentaryAlerts, avg_spo2, spo2_values, sedentary_hours,
      total_active_minutes, hrv_baseline, hrv_recent, c6_metrics,
      List.filterMap_cons]
    decide

/-- C6 amended: the low-SpO2 alert fires iff some sample carries spo2 and
the mean of the present spo2 values is nonzero and below 94; when no
sample carries spo2 the average is absent and the alert cannot fire. -/
theorem C6_low_spo2_amended (metrics : List HealthMetric)
    (sleepData : Option SleepData) (res : DailyAnalysisResult)
    (hok : analyze_health metrics sleepData = Except.ok res) :
    (spo2_values metrics = [] →
      res.dailyStats.avgSpO2 = none ∧ lowSpo2Msg ∉ res.alerts) ∧
    (lowSpo2Msg ∈ res.alerts ↔
      ∃ v, avg_spo2 metrics = some v ∧ v ≠ 0 ∧ v < 94) := by
  have hm : metrics ≠ [] := by
    intro h
    subst h
    simp [analyze_health] at hok
  rw [analyze_health_ok metrics sleepData hm] at hok
  cases hok
  have h1 : lowSpo2Msg ∉ hrvDropAlerts (metrics.map (·.hrv)) := fun h =>
    absurd (eq_hrvDropMsg_of_mem h) (by decide)
  have h2 : lowSpo2Msg ∉ sleepAlerts sleepData := fun h =>
    absurd (eq_lowSleepMsg_of_mem h) (by decide)
  have h4 : lowSpo2Msg ∉ sedentaryAlerts metrics := fun h =>
    absurd (eq_sedentaryMsg_of_mem h) (by decide)
  have hiso : lowSpo2Msg ∈
        hrvDropAlerts (metrics.map (·.hrv)) ++ sleepAlerts sleepData ++
          spo2Alerts metrics ++ sedentaryAlerts metrics ↔
      lowSpo2Msg ∈ spo2Alerts metrics := by
    simp only [List.mem_append]
    tauto
  have key : lowSpo2Msg ∈ spo2Alerts metrics ↔
      ∃ v, avg_spo2 metrics = some v ∧ v ≠ 0 ∧ v < 94 := by
    unfold spo2Alerts
    rcases hv : avg_spo2 metrics with _ | v
    · simp
    · dsimp only
      split_ifs with hc
      · simp only [List.mem_singleton, true_iff]
        exact ⟨v, rfl, hc⟩
      · simp only [List.not_mem_nil, false_iff]
        rintro ⟨w, hw, hwc⟩
        cases hw
        exact hc hwc
  constructor
  · intro hempty
    have havg : avg_spo2 metrics = none := by
      unfold avg_spo2
      rw [if_pos hempty]
    refine ⟨havg, ?_⟩
    show lowSpo2Msg ∉ _ ++ _ ++ _ ++ _
    rw [hiso, key, havg]
    rintro ⟨v, hv, -⟩
    cases hv
  · show lowSpo2Msg ∈ _ ++ _ ++ _ ++ _ ↔ _
    rw [hiso, key]

/-- Batch for the C6 witness: spo2 values 90 and 92, mean 91 < 94. -/
def c6w_metrics : List HealthMetric :=
  [⟨0, 0, 1, 0, 0, 30, some 90⟩, ⟨0, 0, 1, 0, 0, 30, some 92⟩]

/-- C6 witness: with present spo2 values of mean 91 the low-SpO2 alert is
present; with no spo2 at all the average is absent and the alert is
absent. -/
theorem C6_low_spo2_amended_witness :
    lowSpo2Msg ∈ (getOk (analyze_health c6w_metrics none)).alerts ∧
    ((getOk (analyze_health c3_metrics none)).dailyStats.avgSpO2 = none ∧
      lowSpo2Msg ∉ (getOk (analyze_health c3_metrics none)).alerts) :=
  ⟨((C6_low_spo2_amended c6w_metrics none _ rfl).2).mpr
      ⟨91, by
          unfold avg_spo2
          rw [if_neg (by decide)]
          norm_num [spo2_values, c6w_metrics, List.filterMap_cons],
        by norm_num, by norm_num⟩,
   (C6_low_spo2_amended c3_metrics none _ rfl).1 (by decide)⟩

lemma tod_code_eq_spec (h m : ℕ) (hh : h < 24) (hm : m < 60) :
    get_time_of_day_factor h m =
      specTimeOfDayFactor ((h : ℚ) + (m : ℚ) / 60) := by
  have f0 : (0 : ℚ) ≤ (m : ℚ) / 60 := by positivity
  have f1 : (m : ℚ) / 60 < 1 := by
    rw [div_lt_one (by norm_num : (0 : ℚ) < 60)]
    exact_mod_cast hm
  simp only [get_time_of_day_factor, specTimeOfDayFactor]
  by_cases c1 : 23 ≤ h ∨ h < 7
  · have hs1 : 23 ≤ (h : ℚ) + (m : ℚ) / 60 ∨ (h : ℚ) + (m : ℚ) / 60 < 7 := by
      rcases c1 with c | c
      · left
        have hc : (23 : ℚ) ≤ (h : ℚ) := by exact_mod_cast c
        linarith
      · right
        have hc : (h : ℚ) ≤ 6 := by exact_mod_cast Nat.lt_succ_iff.mp c
        linarith
    rw [if_pos c1, if_pos hs1]
  · have hge7 : 7 ≤ h := by omega
    have hlt23 : h < 23 := by omega
    have hq7 : (7 : ℚ) ≤ (h : ℚ) := by exact_mod_cast hge7
    have hq22 : (h : ℚ) ≤ 22 := by exact_mod_cast Nat.lt_succ_iff.mp hlt23
    have hns : ¬(23 ≤ (h : ℚ) + (m : ℚ) / 60 ∨
        (h : ℚ) + (m : ℚ) / 60 < 7) := by
      push_neg
      exact ⟨by linarith, by linarith⟩
    rw [if_neg c1, if_neg hns]
    by_cases c2 : 7 ≤ h ∧ h < 9
    · have h8 : (h : ℚ) ≤ 8 := by exact_mod_cast Nat.lt_succ_iff.mp c2.2
      have hs2 : (h : ℚ) + (m : ℚ) / 60 < 9 := by linarith
      rw [if_pos c2, if_pos hs2]
      simp only [TimeFactors.mk.injEq, lerp]
      refine ⟨by ring, by ring, by ring, trivial⟩
    · have hge9 : 9 ≤ h := by omega
      have hq9 : (9 : ℚ) ≤ (h : ℚ) := by exact_mod_cast hge9
      have hn2 : ¬((h : ℚ) + (m : ℚ) / 60 < 9) := by
        push_neg
        linarith
      rw [if_neg c2, if_neg hn2]
      by_cases c3 : 9 ≤ h ∧ h < 12
      · have h11 : (h : ℚ) ≤ 11 := by exact_mod_cast Nat.lt_succ_iff.mp c3.2
        have hs3 : (h : ℚ) + (m : ℚ) / 60 < 12 := by linarith
        rw [if_pos c3, if_pos hs3]
      · have hge12 : 12 ≤ h := by omega
        have hq12 : (12 : ℚ) ≤ (h : ℚ) := by exact_mod_cast hge12
        have hn3 : ¬((h : ℚ) + (m : ℚ) / 60 < 12) := by
          push_neg
          linarith
        rw [if_neg c3, if_neg hn3]
        by_cases c4 : 12 ≤ h ∧ h < 14
        · have h13 : (h : ℚ) ≤ 13 := by
            exact_mod_cast Nat.lt_succ_iff.mp c4.2
          have hs4 : (h : ℚ) + (m : ℚ) / 60 < 14 := by linarith
          rw [if_pos c4, if_pos hs4]
        · have hge14 : 14 ≤ h := by omega
          have hq14 : (14 : ℚ) ≤ (h : ℚ) := by exact_mod_cast hge14
          have hn4 : ¬((h : ℚ) + (m : ℚ) / 60 < 14) := by
            push_neg
            linarith
          rw [if_neg c4, if_neg hn4]
          by_cases c5 : 14 ≤ h ∧ h < 18
          · have h17 : (h : ℚ) ≤ 17 := by
              exact_mod_cast Nat.lt_succ_iff.mp c5.2
            have hs5 : (h : ℚ) + (m : ℚ) / 60 < 18 := by linarith
            rw [if_pos c5, if_pos hs5]
          · have hge18 : 18 ≤ h := by omega
            have hq18 : (18 : ℚ) ≤ (h : ℚ) := by exact_mod_cast hge18
            have hn5 : ¬((h : ℚ) + (m : ℚ) / 60 < 18) := by
              push_neg
              linarith
            rw [if_neg c5, if_neg hn5]
            by_cases c6 : 18 ≤ h ∧ h < 21
            · have h20 : (h : ℚ) ≤ 20 := by
                exact_mod_cast Nat.lt_succ_iff.mp c6.2
              have hs6 : (h : ℚ) + (m : ℚ) / 60 < 21 := by linarith
              rw [if_pos c6, if_pos hs6]
              simp only [TimeFactors.mk.injEq, lerp]
              refine ⟨by ring, by ring, by ring, trivial⟩
            · have hge21 : 21 ≤ h := by omega
              have hq21 : (21 : ℚ) ≤ (h : ℚ) := by exact_mod_cast hge21
              have hn6 : ¬((h : ℚ) + (m : ℚ) / 60 < 21) := by
                push_neg
                linarith
              rw [if_neg c6, if_neg hn6]

/-- C7: the hour-based phase dispatch of the code realises exactly the
seven-phase circadian table of the spec over the decimal clock time, with half-open
phase intervals, midnight wrap of the Sleep phase and linear interpolation
inside Wake-up and Wind-down; in particular at 03:00 the subject is
asleep with zero activity and at 15:00 the activity level is 0.8. -/
theorem C7_circadian_phase_table :
    (∀ hour minute : ℕ, hour < 24 → minute < 60 →
      get_time_of_day_factor hour minute =
        specTimeOfDayFactor ((hour : ℚ) + (minute : ℚ) / 60)) ∧
    (get_time_of_day_factor 3 0).is_sleeping = true ∧
    (get_time_of_day_factor 3 0).activity = 0 ∧
    (get_time_of_day_factor 15 0).activity = 0.8 :=
  ⟨tod_code_eq_spec, by decide, by decide,
    by norm_num [get_time_of_day_factor]⟩

/-- C7 witness: the equality of code and spec factors instantiated in the
wind-down phase at 19:30. -/
theorem C7_circadian_phase_table_witness :
    get_time_of_day_factor 19 30 =
      specTimeOfDayFactor (((19 : ℕ) : ℚ) + ((30 : ℕ) : ℚ) / 60) :=
  C7_circadian_phase_table.1 19 30 (by decide) (by decide)

lemma pyRound_clamp_mem (n : ℕ) (lo hi : ℤ) (x : ℚ)
    (hlohi : (lo : ℚ) ≤ (hi : ℚ)) :
    (lo : ℚ) ≤ pyRound n (max (lo : ℚ) (min (hi : ℚ) x)) ∧
      pyRound n (max (lo : ℚ) (min (hi : ℚ) x)) ≤ (hi : ℚ) :=
  pyRound_mem n lo hi _ (le_max_left _ _)
    (max_le hlohi (min_le_left _ _))

/-- C8: for every clock time and every value of the random draws, the
generated sample satisfies the generation-time clamps:
heartRate in [45,120], restingHeartRate in [50,75], hrv in [20,100] and
spo2 in [94,100]. -/
theorem C8_generation_clamps (hour minute : ℕ) (d : MetricDraws) :
    (45 ≤ (generate_metrics hour minute d).heartRate ∧
      (generate_metrics hour minute d).heartRate ≤ 120) ∧
    (50 ≤ (generate_metrics hour minute d).restingHeartRate ∧
      (generate_metrics hour minute d).restingHeartRate ≤ 75) ∧
    (20 ≤ (generate_metrics hour minute d).hrv ∧
      (generate_metrics hour minute d).hrv ≤ 100) ∧
    (∀ v, (generate_metrics hour minute d).spo2 = some v →
      94 ≤ v ∧ v ≤ 100) := by
  unfold generate_metrics
  dsimp only
  refine ⟨?_, ?_, ?_, ?_⟩
  · have := pyRound_clamp_mem 1 45 120
      (base_resting_hr * (get_time_of_day_factor hour minute).hr_multiplier +
        d.hr_noise) (by norm_num)
    push_cast at this
    exact this
  · have := pyRound_clamp_mem 1 50 75 (base_resting_hr + d.resting_noise)
      (by norm_num)
    push_cast at this
    exact this
  · have := pyRound_clamp_mem 1 20 100
      (base_hrv * (get_time_of_day_factor hour minute).hrv_multiplier +
        d.hrv_noise) (by norm_num)
    push_cast at this
    exact this
  · intro v hv
    have := pyRound_clamp_mem 1 94 100 (97 + d.spo2_noise) (by norm_num)
    push_cast at this
    injection hv with hv
    rw [← hv]
    exact this

/-- Zero noise draws for the C8 witness. -/
def c8_draws : MetricDraws := ⟨0, 0, 0, 0, 0⟩

/-- C8 witness: at 03:00 with zero noise the sample carries spo2 = 97,
which the clamp theorem places inside [94, 100]. -/
theorem C8_generation_clamps_witness :
    (generate_metrics 3 0 c8_draws).spo2 = some 97 ∧
      (94 ≤ (97 : ℚ) ∧ (97 : ℚ) ≤ 100) :=
  ⟨by norm_num [generate_metrics, get_time_of_day_factor, pyRound,
      roundHalfEven, c8_draws],
   (C8_generation_clamps 3 0 c8_draws).2.2.2 97
     (by norm_num [generate_metrics, get_time_of_day_factor, pyRound,
       roundHalfEven, c8_draws])⟩

/-- Forget the generator-only sleep flag, giving the input shape of the
aggregator. -/
def toHealthMetric (s : GenSample) : HealthMetric :=
  ⟨s.heartRate, s.restingHeartRate, s.hrv, s.steps, s.calories,
    s.activeMinutes, s.spo2⟩

/-- C10: every generated sample carries a present spo2 value, so on any
non-empty generator-produced batch the aggregated spo2 average is
present and the no-spo2 branch of the aggregator is dead. -/
theorem C10_spo2_always_present :
    (∀ (hour minute : ℕ) (d : MetricDraws),
      ∃ v, (generate_metrics hour minute d).spo2 = some v) ∧
    (∀ ticks : List (ℕ × ℕ × MetricDraws), ticks ≠ [] →
      avg_spo2 (ticks.map fun t =>
        toHealthMetric (generate_metrics t.1 t.2.1 t.2.2)) ≠ none) := by
  constructor
  · intro hour minute d
    exact ⟨_, rfl⟩
  · intro ticks hne
    match ticks with
    | [] => exact absurd rfl hne
    | t :: rest =>
      have hsh : spo2_values ((t :: rest).map fun t =>
          toHealthMetric (generate_metrics t.1 t.2.1 t.2.2)) =
          pyRound 1 (max 94 (min 100 (97 + t.2.2.spo2_noise))) ::
            spo2_values (rest.map fun t =>
              toHealthMetric (generate_metrics t.1 t.2.1 t.2.2)) := rfl
      unfold avg_spo2
      rw [if_neg (by rw [hsh]; exact List.cons_ne_nil _ _)]
      exact Option.some_ne_none _

/-- Draws for the C9 counterexample: duration 8.4751 h, deep and rem
proportion offsets tuned so that all three stage values have fractional
part 0.9 against 508 total minutes. -/
def c9_draws : SleepDraws :=
  ⟨84751 / 10000, 0, 639 / 5080 - 3 / 20, 1279 / 5080 - 1 / 4⟩

/-- C9 counterexample: draws inside all the stated ranges for which the
stage-minute sum (506) differs from `round(durationHours * 60)` (509) by
3 minutes, refuting the claimed 1-minute slack. -/
theorem C9_sleep_stage_sum_counterexample :
    (5.5 : ℚ) ≤ c9_draws.duration_gauss ∧
    c9_draws.duration_gauss ≤ 9.5 ∧
    |c9_draws.deep_uniform| ≤ 3 / 100 ∧
    |c9_draws.rem_uniform| ≤ 1 / 20 ∧
    ¬(|((generate_sleep_data c9_draws).deepSleepMinutes +
          (generate_sleep_data c9_draws).remSleepMinutes +
          (generate_sleep_data c9_draws).lightSleepMinutes) -
        round ((generate_sleep_data c9_draws).durationHours * 60)| ≤ 1) := by
  refine ⟨by norm_num [c9_draws], by norm_num [c9_draws],
    by rw [abs_le]; constructor <;> norm_num [c9_draws],
    by rw [abs_le]; constructor <;> norm_num [c9_draws], ?_⟩
  have e1 : (generate_sleep_data c9_draws).deepSleepMinutes = 63 := by
    norm_num [generate_sleep_data, c9_draws, pyInt]
  have e2 : (generate_sleep_data c9_draws).remSleepMinutes = 127 := by
    norm_num [generate_sleep_data, c9_draws, pyInt]
  have e3 : (generate_sleep_data c9_draws).lightSleepMinutes = 316 := by
    norm_num [generate_sleep_data, c9_draws, pyInt]
  have e4 : (generate_sleep_data c9_draws).durationHours = 848 / 100 := by
    norm_num [generate_sleep_data, c9_draws, pyRound, roundHalfEven]
  rw [e1, e2, e3, e4]
  rw [show ((848 : ℚ) / 100) * 60 = 2544 / 5 by norm_num, round_eq]
  norm_num

/-- C9 amended: the stage-minute sum lies within 3 minutes of
`round(durationHours * 60)`: the three floors lose up to 2 minutes, and
the truncation of `duration * 60` combined with the 2-decimal rounding of
the stored duration accounts for 1 more. -/
theorem C9_sleep_stage_sum_amended (d : SleepDraws)
    (hdeep : |d.deep_uniform| ≤ 3 / 100) (hrem : |d.rem_uniform| ≤ 1 / 20) :
    |((generate_sleep_data d).deepSleepMinutes +
        (generate_sleep_data d).remSleepMinutes +
        (generate_sleep_data d).lightSleepMinutes) -
      round ((generate_sleep_data d).durationHours * 60)| ≤ 3 := by
  rw [abs_le] at hdeep hrem
  obtain ⟨hdeep1, hdeep2⟩ := hdeep
  obtain ⟨hrem1, hrem2⟩ := hrem
  unfold generate_sleep_data
  dsimp only
  set dur : ℚ := max 5.5 (min 9.5 d.duration_gauss) with hdur
  have hd1 : (5.5 : ℚ) ≤ dur := by
    rw [hdur]
    exact le_max_left _ _
  set tm : ℤ := pyInt (dur * 60) with htm
  have htmf : tm = ⌊dur * 60⌋ := by
    rw [htm]
    exact pyInt_eq_floor _ (by nlinarith)
  have h1 : (tm : ℚ) ≤ dur * 60 := by
    rw [htmf]
    exact Int.floor_le _
  have h2 : dur * 60 < (tm : ℚ) + 1 := by
    rw [htmf]
    exact Int.lt_floor_add_one _
  have hdp0 : (0 : ℚ) ≤ 0.15 + d.deep_uniform := by linarith
  have hrp0 : (0 : ℚ) ≤ 0.25 + d.rem_uniform := by linarith
  have hlp0 : (0 : ℚ) ≤
      1 - (0.15 + d.deep_uniform) - (0.25 + d.rem_uniform) := by linarith
  have htm0 : (0 : ℚ) ≤ (tm : ℚ) := by
    rw [htmf]
    have hnn : 0 ≤ ⌊dur * 60⌋ := Int.floor_nonneg.mpr (by nlinarith)
    exact_mod_cast hnn
  have e1 : pyInt ((tm : ℚ) * (0.15 + d.deep_uniform)) =
      ⌊(tm : ℚ) * (0.15 + d.deep_uniform)⌋ :=
    pyInt_eq_floor _ (mul_nonneg htm0 hdp0)
  have e2 : pyInt ((tm : ℚ) * (0.25 + d.rem_uniform)) =
      ⌊(tm : ℚ) * (0.25 + d.rem_uniform)⌋ :=
    pyInt_eq_floor _ (mul_nonneg htm0 hrp0)
  have e3 : pyInt ((tm : ℚ) *
        (1 - (0.15 + d.deep_uniform) - (0.25 + d.rem_uniform))) =
      ⌊(tm : ℚ) * (1 - (0.15 + d.deep_uniform) - (0.25 + d.rem_uniform))⌋ :=
    pyInt_eq_floor _ (mul_nonneg htm0 hlp0)
  set a : ℚ := (tm : ℚ) * (0.15 + d.deep_uniform) with ha
  set b : ℚ := (tm : ℚ) * (0.25 + d.rem_uniform) with hb
  set c : ℚ := (tm : ℚ) *
    (1 - (0.15 + d.deep_uniform) - (0.25 + d.rem_uniform)) with hc
  have habc : a + b + c = (tm : ℚ) := by
    rw [ha, hb, hc]
    ring
  have fa1 := Int.floor_le a
  have fb1 := Int.floor_le b
  have fc1 := Int.floor_le c
  have fa2 := Int.sub_one_lt_floor a
  have fb2 := Int.sub_one_lt_floor b
  have fc2 := Int.sub_one_lt_floor c
  have hsum1 : ⌊a⌋ + ⌊b⌋ + ⌊c⌋ ≤ tm := by
    have hq : ((⌊a⌋ + ⌊b⌋ + ⌊c⌋ : ℤ) : ℚ) ≤ (tm : ℚ) := by
      push_cast
      linarith
    exact_mod_cast hq
  have hsum2 : tm - 3 < ⌊a⌋ + ⌊b⌋ + ⌊c⌋ := by
    have hq : ((tm - 3 : ℤ) : ℚ) < ((⌊a⌋ + ⌊b⌋ + ⌊c⌋ : ℤ) : ℚ) := by
      push_cast
      linarith
    exact_mod_cast hq
  set dh : ℚ := pyRound 2 dur with hdh
  have hround2 : |dh - dur| ≤ 1 / 200 := by
    rw [hdh]
    have := abs_pyRound_sub 2 dur
    norm_num at this
    exact this
  have habs : |(round (dh * 60) : ℚ) - dh * 60| ≤ 1 / 2 := by
    rw [abs_sub_comm]
    exact abs_sub_round (dh * 60)
  rw [abs_le] at hround2 habs
  have hi1 : round (dh * 60) ≤ tm + 1 := by
    have hq : (round (dh * 60) : ℚ) < ((tm + 2 : ℤ) : ℚ) := by
      push_cast
      linarith
    have hz : round (dh * 60) < tm + 2 := by exact_mod_cast hq
    omega
  have hi2 : tm ≤ round (dh * 60) := by
    have hq : ((tm - 1 : ℤ) : ℚ) < (round (dh * 60) : ℚ) := by
      push_cast
      linarith
    have hz : tm - 1 < round (dh * 60) := by exact_mod_cast hq
    omega
  rw [e1, e2, e3, abs_le]
  constructor <;> omega

/-- Zero-noise draws with an 8-hour duration for the C9 witness. -/
def c9w_draws : SleepDraws := ⟨8, 0, 0, 0⟩

/-- C9 witness: at duration 8 h with centred proportions, the stage sum
is within 3 minutes of the rounded duration. -/
theorem C9_sleep_stage_sum_amended_witness :
    |((generate_sleep_data c9w_draws).deepSleepMinutes +
        (generate_sleep_data c9w_draws).remSleepMinutes +
        (generate_sleep_data c9w_draws).lightSleepMinutes) -
      round ((generate_sleep_data c9w_draws).durationHours * 60)| ≤ 3 :=
  C9_sleep_stage_sum_amended c9w_draws (by norm_num [c9w_draws])
    (by norm_num [c9w_draws])

/-- C10 witness: a one-tick generated batch has a present aggregated spo2
average. -/
theorem C10_spo2_always_present_witness :
    avg_spo2 ([((3 : ℕ), (0 : ℕ), c8_draws)].map fun t =>
      toHealthMetric (generate_metrics t.1 t.2.1 t.2.2)) ≠ none :=
  C10_spo2_always_present.2 [(3, 0, c8_draws)] (List.cons_ne_nil _ _)

end StressOFF
